import Mathlib

/-!
Shallow embedding of the face-database repository: `facials.py` (value
types, extraction, comparison) and `facedb.py` (sqlite type adapters and
the `FaceDB` persistence layer).  Python `str`/`bytes` values are
modelled as lists of characters, machine integers as `Nat`/`Int`, numpy
float vectors as lists of rationals (carried exactly, never inspected
numerically except by the comparison utility), and fallible Python code
as `Option`/`Except`.
-/

/-- Python `str` / `bytes` values, modelled as lists of characters. -/
abbrev PyStr := List Char

/-- Model of Python `sep.join(parts)` (used with `','` and `' OR '`). -/
def pyJoin (sep : PyStr) : List PyStr → PyStr
  | [] => []
  | [s] => s
  | s :: t :: rest => s ++ sep ++ pyJoin sep (t :: rest)

/-- Model of Python `s.split(sep)` for a one-character separator.
Python semantics: `"".split(',') == ['']`, and the result is never the
empty list. -/
def pySplit (sep : Char) : PyStr → List PyStr
  | [] => [[]]
  | c :: rest =>
    if c = sep then [] :: pySplit sep rest
    else
      match pySplit sep rest with
      | r :: rs => (c :: r) :: rs
      | [] => [[c]]

/-- Does the string (first argument) start with the pattern (second)? -/
def pyStartsWith : PyStr → PyStr → Bool
  | _, [] => true
  | [], _ :: _ => false
  | c :: s, d :: p => c = d && pyStartsWith s p

/-- Does the pattern `p` occur as a contiguous substring of the second
argument?  Models Python `p in s` / the core of SQL `LIKE '%p%'`. -/
def pyContains (p : PyStr) : PyStr → Bool
  | [] => pyStartsWith [] p
  | c :: s => pyStartsWith (c :: s) p || pyContains p s

/-- Little-endian base-10 digits of `n`, with explicit fuel so that the
recursion is structural (fuel `n` always suffices). -/
def natDigitsAux : Nat → Nat → List Nat
  | 0, _ => []
  | _ + 1, 0 => []
  | fuel + 1, n + 1 => (n + 1) % 10 :: natDigitsAux fuel ((n + 1) / 10)

/-- Little-endian base-10 digits of `n` (`natDigits 0 = []`). -/
def natDigits (n : Nat) : List Nat := natDigitsAux n n

/-- Value of a little-endian base-10 digit list. -/
def digitsToNat : List Nat → Nat
  | [] => 0
  | d :: ds => d + 10 * digitsToNat ds

/-- Model of Python `str(n)` for a natural number. -/
def natToPyStr (n : Nat) : PyStr :=
  if n = 0 then ['0'] else (natDigits n).reverse.map Nat.digitChar

/-- Model of Python `str(n)` for an integer (minus sign, then digits). -/
def intToPyStr (n : Int) : PyStr :=
  if n < 0 then '-' :: natToPyStr n.natAbs else natToPyStr n.toNat

/-- Numeric value of a decimal digit character. -/
def digitVal (c : Char) : Option Nat :=
  if '0' ≤ c ∧ c ≤ '9' then some (c.toNat - '0'.toNat) else Option.none

/-- Parse every character of the string as a digit (big-endian). -/
def parseDigits : PyStr → Option (List Nat)
  | [] => some []
  | c :: rest =>
    match digitVal c, parseDigits rest with
    | some d, some ds => some (d :: ds)
    | _, _ => Option.none

/-- Model of Python `int(s)` on a non-negative decimal numeral: every
character must be a digit and the string must be non-empty. -/
def parseNat (s : PyStr) : Option Nat :=
  if s.isEmpty then Option.none
  else (parseDigits s).map fun ds => digitsToNat ds.reverse

/-- Model of Python `int(s)` with an optional leading minus sign. -/
def parseInt : PyStr → Option Int
  | [] => Option.none
  | c :: rest =>
    if c = '-' then (parseNat rest).map fun n => -(n : Int)
    else (parseNat (c :: rest)).map fun n => (n : Int)

/-- Embedding of `facials.FaceLocation`: four bounding-box integers. -/
structure FaceLocation where
  x1 : Int
  y1 : Int
  x2 : Int
  y2 : Int
deriving DecidableEq

/-- Embedding of `FaceLocation.from_fr_rect` (facials.py 18-24): the
collaborator rect `(top, right, bottom, left)` is indexed as
`x1 = rect[3]`, `y1 = rect[0]`, `x2 = rect[1]`, `y2 = rect[2]`. -/
def FaceLocation.from_fr_rect (fr_rect : Int × Int × Int × Int) : FaceLocation :=
  { x1 := fr_rect.2.2.2, y1 := fr_rect.1, x2 := fr_rect.2.1, y2 := fr_rect.2.2.1 }

/-- Embedding of `FaceLocation.fr_rect` (facials.py 27-31):
`(y1, x2, y2, x1)`. -/
def FaceLocation.fr_rect (loc : FaceLocation) : Int × Int × Int × Int :=
  (loc.y1, loc.x2, loc.y2, loc.x1)

/-- Embedding of `FaceLocation.rect` (facials.py 33-38), as the list of
coordinates the location adapter iterates over: `(x1, y1, x2, y2)`. -/
def FaceLocation.rect (loc : FaceLocation) : List Int :=
  [loc.x1, loc.y1, loc.x2, loc.y2]

/-- Embedding of `facials.ImageFormat` (a string-valued enum). -/
inductive ImageFormat
  | BYTE_STREAM
  | LOCAL_PATH
  | URL
  | ID
deriving DecidableEq

/-- The `.value` string of each enum member. -/
def ImageFormat.value : ImageFormat → PyStr
  | .BYTE_STREAM => "BYTE_STREAM".toList
  | .LOCAL_PATH => "LOCAL_PATH".toList
  | .URL => "URL".toList
  | .ID => "ID".toList

/-- A Python value that may sit in `FaceData.image_data`
(`Union[str, bytes, int]`, or `None` read back from a NULL column). -/
inductive PyVal
  | str (s : PyStr)
  | bytes (b : List Nat)
  | int (n : Int)
  | pyNone
deriving DecidableEq

/-- A numpy float vector, carried exactly as a list of rationals. -/
abbrev FaceEncoding := List ℚ

/-- The byte buffer `np.save` writes for an array.  The external numpy
collaborator documents that `np.load` recovers the saved array exactly,
so the blob is modelled by its information content. -/
structure NpyBlob where
  data : FaceEncoding
deriving DecidableEq

/-- Embedding of `facedb.adapt_nparray` (np.save into a byte buffer). -/
def adapt_nparray (arr : FaceEncoding) : NpyBlob := ⟨arr⟩

/-- Embedding of `facedb.convert_nparray` (np.load from the buffer). -/
def convert_nparray (blob : NpyBlob) : FaceEncoding := blob.data

/-- Embedding of `facedb.adapt_imageformat`: the enum member's value. -/
def adapt_imageformat (f : ImageFormat) : PyStr := f.value

/-- Embedding of `facedb.convert_imageformat`: `ImageFormat(text)`
matches the stored string against the members' values and raises
`ValueError` when none matches. -/
def convert_imageformat (s : PyStr) : Option ImageFormat :=
  if s = ImageFormat.BYTE_STREAM.value then some .BYTE_STREAM
  else if s = ImageFormat.LOCAL_PATH.value then some .LOCAL_PATH
  else if s = ImageFormat.URL.value then some .URL
  else if s = ImageFormat.ID.value then some .ID
  else Option.none

/-- Embedding of `facedb.adapt_facelocation`:
`','.join(str(l) for l in location.rect())`. -/
def adapt_facelocation (loc : FaceLocation) : PyStr :=
  pyJoin [','] (loc.rect.map intToPyStr)

/-- Helper for `convert_facelocation`: parse each component with
Python `int`; any failure propagates. -/
def parseIntList : List PyStr → Option (List Int)
  | [] => some []
  | s :: rest =>
    match parseInt s, parseIntList rest with
    | some n, some ns => some (n :: ns)
    | _, _ => Option.none

/-- Embedding of `facedb.convert_facelocation`:
`FaceLocation(*tuple(int(l) for l in text.split(b',')))`.  A component
that is not a numeral, or an arity other than four, raises. -/
def convert_facelocation (s : PyStr) : Option FaceLocation :=
  match parseIntList (pySplit ',' s) with
  | some [a, b, c, d] => some ⟨a, b, c, d⟩
  | _ => Option.none

/-- Embedding of `facedb.adapt_tags`: `','.join(tags)`. -/
def adapt_tags (tags : List PyStr) : PyStr := pyJoin [','] tags

/-- Embedding of `facedb.convert_tags`:
`tuple(text.decode().split(','))`. -/
def convert_tags (s : PyStr) : List PyStr := pySplit ',' s

/-- Embedding of `facials.FaceData`.  The Python object stores
`description`, `tags` and `id` inside the `extra_properties` keyword
dictionary when a caller supplies them, hence the `Option` fields.  The
claims under verification only concern `FaceData` values whose encoding
is present (the `encoding is None` branch of `__init__` calls the
nonexistent `FaceData.encode` and is never exercised by them). -/
structure FaceData where
  image_format : ImageFormat
  image_data : PyVal
  location : FaceLocation
  encoding : FaceEncoding
  description : Option PyStr := Option.none
  tags : Option (List PyStr) := Option.none
  id : Option Nat := Option.none
deriving DecidableEq

/-- An error raised by `FaceData.extract_from_image`:
`notImplemented` is the `raise NotImplementedError` on the URL / ID
formats; `collaboratorFailed` models the face_recognition collaborator
raising (for example on unreadable image data). -/
inductive ExtractError
  | notImplemented
  | collaboratorFailed
deriving DecidableEq

/-- Collaborator detections: a list of `(top, right, bottom, left)`
boxes, each with the encoding `face_encodings` computes for it. -/
abbrev FRDetections := List ((Int × Int × Int × Int) × FaceEncoding)

/-- The external `face_recognition` collaborator
(`load_image_file` + `face_locations` + `face_encodings`), supplied as
an oracle.  An `.error` result models the collaborator raising. -/
abbrev FROracle := ImageFormat → PyVal → Except ExtractError FRDetections

/-- Embedding of `FaceData.extract_from_image` (facials.py 84-103):
load for BYTE_STREAM or LOCAL_PATH, `raise NotImplementedError`
otherwise; return `[]` when no face is located; otherwise build one
`FaceData` (with no extra properties) per detection. -/
def extract_from_image (oracle : FROracle) (image_format : ImageFormat)
    (image_data : PyVal) : Except ExtractError (List FaceData) :=
  match image_format with
  | .BYTE_STREAM | .LOCAL_PATH =>
    match oracle image_format image_data with
    | .error e => .error e
    | .ok dets =>
      if dets.isEmpty then .ok []
      else .ok (dets.map fun d =>
        { image_format := image_format, image_data := image_data,
          location := FaceLocation.from_fr_rect d.1, encoding := d.2 })
  | .URL => .error .notImplemented
  | .ID => .error .notImplemented

/-- Euclidean distance between two encodings, the value
`np.linalg.norm(a - b)` computes over float vectors of one shape. -/
noncomputable def euclideanDist (a b : FaceEncoding) : ℝ :=
  Real.sqrt (((a.zip b).map fun p => ((p.1 - p.2 : ℚ) : ℝ) ^ 2).sum)

/-- Embedding of `face_recognition.face_distance`: the norm of each row
of `face_encodings - face_to_compare`. -/
noncomputable def face_distance (face_encodings : List FaceEncoding)
    (face_to_compare : FaceEncoding) : List ℝ :=
  face_encodings.map fun e => euclideanDist e face_to_compare

/-- Embedding of `FaceData.compare` (facials.py 71-74): collect the
candidates' encodings, compute the distances, and zip the candidates
with their distances. -/
noncomputable def FaceData.compare (self : FaceData)
    (other_faces : List FaceData) : List (FaceData × ℝ) :=
  other_faces.zip
    (face_distance (other_faces.map fun o => o.encoding) self.encoding)

/-- One row of the `images` table, column values as physically stored
(the IMAGE_FORMAT column holds the adapter's output). -/
structure ImageRow where
  id : Nat
  image_format : PyStr
  image_data : PyVal
  description : PyStr
deriving DecidableEq

/-- One row of the `faces` table, column values as physically stored:
the ENCODING blob and the serialized LOCATION and TAGS strings. -/
structure FaceRow where
  id : Nat
  encoding : NpyBlob
  image : Option Nat
  location : PyStr
  description : PyStr
  tags : PyStr
deriving DecidableEq

/-- The persistent state behind one `facedb.FaceDB` connection: the two
tables, plus the next `INTEGER PRIMARY KEY` each table will assign. -/
structure FaceDB where
  images : List ImageRow := []
  faces : List FaceRow := []
  next_image_id : Nat := 1
  next_face_id : Nat := 1
deriving DecidableEq

/-- A freshly initialised database: two empty tables. -/
def emptyDB : FaceDB := {}

/-- Embedding of `FaceDB.add_image` (facedb.py 101-112): one INSERT,
committed immediately; returns the new rowid. -/
def add_image (db : FaceDB) (image_format : ImageFormat) (image_data : PyVal)
    (description : PyStr) : FaceDB × Nat :=
  ({ db with
      images := db.images ++
        [{ id := db.next_image_id,
           image_format := adapt_imageformat image_format,
           image_data := image_data,
           description := description }],
      next_image_id := db.next_image_id + 1 },
   db.next_image_id)

/-- Embedding of `FaceDB.add_face` (facedb.py 114-125): one INSERT with
the registered adapters applied to the ENCODING, LOCATION and TAGS
column values, committed immediately; returns the new rowid. -/
def add_face (db : FaceDB) (face_data : FaceData) (image_index : Option Nat)
    (description : PyStr) (tags : List PyStr) : FaceDB × Nat :=
  ({ db with
      faces := db.faces ++
        [{ id := db.next_face_id,
           encoding := adapt_nparray face_data.encoding,
           image := image_index,
           location := adapt_facelocation face_data.location,
           description := description,
           tags := adapt_tags tags }],
      next_face_id := db.next_face_id + 1 },
   db.next_face_id)

/-- An error surfacing from the persistence layer during a batch add. -/
inductive DBError
  | insertFailed
  | extractFailed (e : ExtractError)
deriving DecidableEq

/-- The face-insert loop of `add_faces_from_image` (the list
comprehension on facedb.py line 134), with environment failures made
explicit: `fail k = true` injects a storage failure (the k-th face
INSERT raising).  Each earlier `add_face` already committed on its own,
so the state reached so far persists when the exception propagates. -/
def insert_faces (fail : Nat → Bool) (db : FaceDB) (faces : List FaceData)
    (image_index : Nat) (description : PyStr) (tags : List PyStr) (k : Nat) :
    FaceDB × Except DBError (List Nat) :=
  match faces with
  | [] => (db, .ok [])
  | fd :: rest =>
    if fail k then (db, .error .insertFailed)
    else
      match insert_faces fail
          (add_face db fd (some image_index) description tags).1
          rest image_index description tags (k + 1) with
      | (db2, .ok idxs) =>
        (db2, .ok ((add_face db fd (some image_index) description tags).2 :: idxs))
      | (db2, .error e) => (db2, .error e)

/-- Embedding of `FaceDB.add_faces_from_image` (facedb.py 127-136):
extract first, return `[]` on zero faces with no insert at all, and
otherwise insert one image row, then one face row per detected face,
every insert committing on its own. -/
def add_faces_from_image (oracle : FROracle) (fail : Nat → Bool) (db : FaceDB)
    (image_format : ImageFormat) (image_data : PyVal) (description : PyStr)
    (tags : List PyStr) : FaceDB × Except DBError (List Nat) :=
  match extract_from_image oracle image_format image_data with
  | .error e => (db, .error (.extractFailed e))
  | .ok faces =>
    if faces.isEmpty then (db, .ok [])
    else
      insert_faces fail (add_image db image_format image_data description).1
        faces (add_image db image_format image_data description).2
        description tags 0

/-- An error surfacing from a SELECT: either sqlite rejecting the
generated statement, or a registered converter raising on a fetched
column value. -/
inductive QueryError
  | malformedSql
  | conversionFailed
deriving DecidableEq

/-- The interpolated condition `TAGS LIKE '%{tag}%'` of
`get_faces_by_tags` (facedb.py line 145). -/
def tagLikeCondition (tag : PyStr) : PyStr :=
  "TAGS LIKE '%".toList ++ tag ++ "%'".toList

/-- The generated WHERE expression
`' OR '.join(f"TAGS LIKE '%{tag}%'" for tag in tags)`. -/
def tagsWhereExpr (tags : List PyStr) : PyStr :=
  pyJoin " OR ".toList (tags.map tagLikeCondition)

/-- SQLite evaluation of `TAGS LIKE '%pat%'` against the stored column
text: a case-insensitive (ASCII) substring match.  Tags are taken to be
free of the LIKE wildcard characters and of quotes, which the code
never escapes. -/
def sqlLike (pat stored : PyStr) : Bool :=
  pyContains (pat.map Char.toLower) (stored.map Char.toLower)

/-- The Python value the IMAGE column yields (`int`, or `None` when the
row was stored without an image reference). -/
def imageRefVal : Option Nat → PyVal
  | some i => .int i
  | Option.none => .pyNone

/-- Reconstruction of a `FaceData` from a fetched faces row, as built
on facedb.py 149-151: converters applied to the typed columns, the
IMAGE column value passed as `image_data`, and the row id carried in
the extra properties. -/
def row_to_facedata_tagged (row : FaceRow) : Except QueryError FaceData :=
  match convert_facelocation row.location with
  | Option.none => .error .conversionFailed
  | some loc =>
    .ok { image_format := .ID, image_data := imageRefVal row.image,
          location := loc, encoding := convert_nparray row.encoding,
          description := some row.description,
          tags := some (convert_tags row.tags), id := some row.id }

/-- Embedding of `FaceDB.get_faces_by_tags` (facedb.py 139-151).  With
an empty tag collection the interpolated WHERE expression is empty and
sqlite rejects the statement `... WHERE ;`; otherwise the rows whose
stored TAGS text LIKE-matches any requested tag are fetched and
converted. -/
def get_faces_by_tags (db : FaceDB) (tags : List PyStr) :
    Except QueryError (List FaceData) :=
  if (tagsWhereExpr tags).isEmpty then .error .malformedSql
  else
    (db.faces.filter fun row => tags.any fun t => sqlLike t row.tags).mapM
      row_to_facedata_tagged

/-- Embedding of `FaceDB.get_face_by_id` (facedb.py 153-168): point
lookup returning `None` when no row matched; the returned `FaceData`
carries the converted column values but, unlike `get_faces_by_tags`,
no `id` extra property. -/
def get_face_by_id (db : FaceDB) (face_id : Nat) :
    Except QueryError (Option FaceData) :=
  match db.faces.filter fun r => r.id == face_id with
  | [] => .ok Option.none
  | row :: _ =>
    match convert_facelocation row.location with
    | Option.none => .error .conversionFailed
    | some loc =>
      .ok (some { image_format := .ID,
                  image_data := imageRefVal row.image,
                  location := loc,
                  encoding := convert_nparray row.encoding,
                  description := some row.description,
                  tags := some (convert_tags row.tags) })

/-- Embedding of `FaceDB.get_all_tags` (facedb.py 170-182):
`SELECT DISTINCT TAGS`, each distinct stored string deserialized by the
registered converter, then deduplicated in Python by a set. -/
def get_all_tags (db : FaceDB) : List PyStr :=
  ((db.faces.map fun r => r.tags).dedup.flatMap convert_tags).dedup

/-- Concrete encoding vector used by the example databases below. -/
def exEncoding : FaceEncoding := [1, 2]

/-- Concrete bounding box used by the example databases below. -/
def exLocation : FaceLocation := ⟨1, 2, 3, 4⟩

/-- Concrete face value used by the example databases below. -/
def exFace : FaceData :=
  { image_format := .BYTE_STREAM, image_data := .bytes [7],
    location := exLocation, encoding := exEncoding }

/-- The stored tag of the substring-collision scenario. -/
def shellTag : PyStr := "shell".toList

/-- The queried tag of the substring-collision scenario. -/
def hellTag : PyStr := "hell".toList

/-- A database holding exactly one face, tagged only "shell". -/
def shellDB : FaceDB := (add_face emptyDB exFace Option.none [] [shellTag]).1

/-- A collaborator oracle that always detects two faces. -/
def oracleTwoFaces : FROracle :=
  fun _ _ => .ok [((1, 2, 3, 4), exEncoding), ((5, 6, 7, 8), exEncoding)]

/-- A collaborator oracle that never detects a face. -/
def oracleNoFaces : FROracle := fun _ _ => .ok []

/-- Failure injection: the second face INSERT of a batch raises. -/
def failSecond : Nat → Bool := fun k => k == 1

/-- Failure injection: no INSERT ever fails. -/
def noFail : Nat → Bool := fun _ => false

/-- Splitting a string free of the separator yields that string alone. -/
theorem pySplit_of_not_mem {sep : Char} {s : PyStr} (h : sep ∉ s) :
    pySplit sep s = [s] := by
  induction s with
  | nil => rfl
  | cons c s' ih =>
    have hc : ¬ c = sep := by rintro rfl; exact h (List.mem_cons_self _ _)
    have hs : sep ∉ s' := fun hm => h (List.mem_cons_of_mem _ hm)
    simp [pySplit, hc, ih hs]

/-- Splitting past a leading separator-free chunk peels it off. -/
theorem pySplit_append {sep : Char} {s : PyStr} (t : PyStr) (h : sep ∉ s) :
    pySplit sep (s ++ sep :: t) = s :: pySplit sep t := by
  induction s with
  | nil => simp [pySplit]
  | cons c s' ih =>
    have hc : ¬ c = sep := by rintro rfl; exact h (List.mem_cons_self _ _)
    have hs : sep ∉ s' := fun hm => h (List.mem_cons_of_mem _ hm)
    simp [pySplit, hc, ih hs]

/-- Joining a non-empty list of separator-free strings and splitting
again recovers the list: the split-join round trip, exactly under the
side conditions that make Python `','.join` / `split(',')` inverse. -/
theorem pySplit_pyJoin {sep : Char} {l : List PyStr} (h1 : l ≠ [])
    (h2 : ∀ s ∈ l, sep ∉ s) : pySplit sep (pyJoin [sep] l) = l := by
  induction l with
  | nil => exact absurd rfl h1
  | cons s rest ih =>
    cases rest with
    | nil => simpa [pyJoin] using pySplit_of_not_mem (h2 s (List.mem_cons_self _ _))
    | cons t r =>
      have hjoin : pyJoin [sep] (s :: t :: r) = s ++ sep :: pyJoin [sep] (t :: r) := by
        simp [pyJoin]
      rw [hjoin, pySplit_append _ (h2 s (List.mem_cons_self _ _)),
        ih (List.cons_ne_nil _ _) fun x hx => h2 x (List.mem_cons_of_mem _ hx)]

/-- The fueled digit expansion is correct whenever the fuel suffices. -/
theorem digitsToNat_natDigitsAux :
    ∀ (fuel n : Nat), n ≤ fuel → digitsToNat (natDigitsAux fuel n) = n := by
  intro fuel
  induction fuel with
  | zero => intro n hn; interval_cases n; rfl
  | succ f ih =>
    intro n hn
    match n with
    | 0 => rfl
    | m + 1 =>
      have hdiv : (m + 1) / 10 ≤ f := by
        have := Nat.div_lt_self (Nat.succ_pos m) (show 1 < 10 by norm_num)
        omega
      simp only [natDigitsAux, digitsToNat, ih _ hdiv]
      omega

/-- The digit expansion of `n` evaluates back to `n`. -/
theorem digitsToNat_natDigits (n : Nat) : digitsToNat (natDigits n) = n :=
  digitsToNat_natDigitsAux n n le_rfl

/-- All produced digits are below the base. -/
theorem natDigitsAux_lt_ten :
    ∀ (fuel n : Nat), ∀ d ∈ natDigitsAux fuel n, d < 10 := by
  intro fuel
  induction fuel with
  | zero => intro n d hd; simp [natDigitsAux] at hd
  | succ f ih =>
    intro n d hd
    match n with
    | 0 => simp [natDigitsAux] at hd
    | m + 1 =>
      simp only [natDigitsAux, List.mem_cons] at hd
      rcases hd with hd | hd
      · omega
      · exact ih _ d hd

/-- A positive number has a non-empty digit expansion. -/
theorem natDigits_ne_nil {n : Nat} (h : n ≠ 0) : natDigits n ≠ [] := by
  match n, h with
  | m + 1, _ => simp [natDigits, natDigitsAux]

/-- Every character of `str(n)` is a decimal digit character. -/
theorem natToPyStr_mem {n : Nat} {c : Char} (h : c ∈ natToPyStr n) :
    ∃ d, d < 10 ∧ c = Nat.digitChar d := by
  unfold natToPyStr at h
  split at h
  · simp at h
    exact ⟨0, by norm_num, h⟩
  · rw [List.mem_map] at h
    obtain ⟨d, hd, rfl⟩ := h
    exact ⟨d, natDigitsAux_lt_ten _ _ d (List.mem_reverse.mp hd), rfl⟩

/-- Digit characters parse back to their value. -/
theorem digitVal_digitChar {d : Nat} (hd : d < 10) :
    digitVal (Nat.digitChar d) = some d := by
  interval_cases d <;> rfl

/-- Digit characters are not the comma separator. -/
theorem digitChar_ne_comma {d : Nat} (hd : d < 10) : Nat.digitChar d ≠ ',' := by
  interval_cases d <;> decide

/-- Digit characters are not the minus sign. -/
theorem digitChar_ne_dash {d : Nat} (hd : d < 10) : Nat.digitChar d ≠ '-' := by
  interval_cases d <;> decide

/-- Rendering digits and parsing them back is the identity. -/
theorem parseDigits_map {ds : List Nat} (h : ∀ d ∈ ds, d < 10) :
    parseDigits (ds.map Nat.digitChar) = some ds := by
  induction ds with
  | nil => rfl
  | cons d t ih =>
    have hd := h d (List.mem_cons_self _ _)
    have ht := ih fun x hx => h x (List.mem_cons_of_mem _ hx)
    simp [parseDigits, digitVal_digitChar hd, ht]

/-- The string of a natural number is never empty. -/
theorem natToPyStr_ne_nil (n : Nat) : natToPyStr n ≠ [] := by
  unfold natToPyStr
  split
  · simp
  · rename_i h
    simp [natDigits_ne_nil h]

/-- Python `int(str(n))` round trip on naturals. -/
theorem parseNat_natToPyStr (n : Nat) : parseNat (natToPyStr n) = some n := by
  by_cases h : n = 0
  · subst h; rfl
  · unfold natToPyStr parseNat
    rw [if_neg h]
    have hnil : (natDigits n).reverse.map Nat.digitChar ≠ [] := by
      simp [natDigits_ne_nil h]
    rw [if_neg (by simpa using hnil)]
    have hpd : parseDigits ((natDigits n).reverse.map Nat.digitChar) =
        some ((natDigits n).reverse) :=
      parseDigits_map fun d hd => natDigitsAux_lt_ten n n d (List.mem_reverse.mp hd)
    rw [hpd]
    simp [digitsToNat_natDigits]

/-- The comma never occurs in `str(n)` for a natural number. -/
theorem comma_not_mem_natToPyStr (n : Nat) : ',' ∉ natToPyStr n := by
  intro h
  obtain ⟨d, hd, he⟩ := natToPyStr_mem h
  exact digitChar_ne_comma hd he.symm

/-- The comma never occurs in `str(n)` for an integer. -/
theorem comma_not_mem_intToPyStr (n : Int) : ',' ∉ intToPyStr n := by
  unfold intToPyStr
  split
  · intro h
    rcases List.mem_cons.mp h with h | h
    · exact absurd h (by decide)
    · exact comma_not_mem_natToPyStr _ h
  · exact comma_not_mem_natToPyStr _

/-- Python `int(str(n))` round trip on integers. -/
theorem parseInt_intToPyStr (n : Int) : parseInt (intToPyStr n) = some n := by
  unfold intToPyStr
  split
  · rename_i hneg
    have h1 : parseInt ('-' :: natToPyStr n.natAbs) =
        (parseNat (natToPyStr n.natAbs)).map fun m => -(m : Int) := rfl
    rw [h1, parseNat_natToPyStr]
    exact congrArg some (show -((n.natAbs : Int)) = n by omega)
  · rename_i hpos
    obtain ⟨c, t, hct⟩ : ∃ c t, natToPyStr n.toNat = c :: t := by
      cases hcase : natToPyStr n.toNat with
      | nil => exact absurd hcase (natToPyStr_ne_nil _)
      | cons c t => exact ⟨c, t, rfl⟩
    obtain ⟨d, hd10, rfl⟩ :=
      natToPyStr_mem (hct ▸ List.mem_cons_self _ t)
    rw [hct]
    have hparse : parseNat (Nat.digitChar d :: t) = some n.toNat := by
      rw [← hct, parseNat_natToPyStr]
    have h1 : parseInt (Nat.digitChar d :: t) =
        (parseNat (Nat.digitChar d :: t)).map fun m => (m : Int) := by
      simp only [parseInt]
      rw [if_neg (digitChar_ne_dash hd10)]
    rw [h1, hparse]
    exact congrArg some (show ((n.toNat : Int)) = n by omega)

/-- The location adapter and converter are mutually inverse. -/
theorem convert_adapt_facelocation (loc : FaceLocation) :
    convert_facelocation (adapt_facelocation loc) = some loc := by
  unfold adapt_facelocation convert_facelocation
  have hsplit : pySplit ',' (pyJoin [','] (loc.rect.map intToPyStr)) =
      loc.rect.map intToPyStr := by
    apply pySplit_pyJoin
    · simp [FaceLocation.rect]
    · intro s hs
      rw [List.mem_map] at hs
      obtain ⟨x, _, rfl⟩ := hs
      exact comma_not_mem_intToPyStr x
  rw [hsplit]
  have hparse : parseIntList (loc.rect.map intToPyStr) = some loc.rect := by
    simp [FaceLocation.rect, parseIntList, parseInt_intToPyStr]
  rw [hparse]
  rfl

/-- The enum adapter and converter are mutually inverse. -/
theorem convert_adapt_imageformat (f : ImageFormat) :
    convert_imageformat (adapt_imageformat f) = some f := by
  cases f <;> rfl

/-- The tags adapter and converter are mutually inverse on every
non-empty, comma-free tag collection. -/
theorem convert_adapt_tags {tags : List PyStr} (h1 : tags ≠ [])
    (h2 : ∀ t ∈ tags, ',' ∉ t) : convert_tags (adapt_tags tags) = tags :=
  pySplit_pyJoin h1 h2

/-- Zipping a list with its image under a map pairs each element with
its image. -/
theorem zip_map_self {α β : Type} (g : α → β) (l : List α) :
    l.zip (l.map g) = l.map fun a => (a, g a) := by
  induction l with
  | nil => rfl
  | cons a t ih => simp [ih]

/-- The Euclidean distance between identical encodings is zero. -/
theorem euclideanDist_self (a : FaceEncoding) : euclideanDist a a = 0 := by
  unfold euclideanDist
  have hzip : a.zip a = a.map fun x => (x, x) := by
    have := zip_map_self (fun x : ℚ => x) a
    simpa using this
  rw [hzip]
  have hsum : ((a.map fun x => (x, x)).map
      fun p : ℚ × ℚ => ((p.1 - p.2 : ℚ) : ℝ) ^ 2).sum = 0 := by
    apply List.sum_eq_zero
    intro x hx
    rw [List.map_map, List.mem_map] at hx
    obtain ⟨q, _, rfl⟩ := hx
    simp
  rw [hsum, Real.sqrt_zero]

/-- Adding a face appends a single row and touches nothing else. -/
theorem add_face_state (db : FaceDB) (fd : FaceData) (idx : Option Nat)
    (desc : PyStr) (tags : List PyStr) :
    (add_face db fd idx desc tags).1.images = db.images ∧
    (add_face db fd idx desc tags).1.faces.length = db.faces.length + 1 := by
  constructor
  · rfl
  · simp [add_face]

/-- Failure of the j-th face INSERT of the loop leaves the image table
untouched and exactly the j face rows already committed. -/
theorem insert_faces_fail_state (fail : Nat → Bool) (image_index : Nat)
    (description : PyStr) (tags : List PyStr) :
    ∀ (j : Nat) (faces : List FaceData) (db : FaceDB) (k : Nat),
      j < faces.length →
      (∀ i, i < j → fail (k + i) = false) →
      fail (k + j) = true →
      ∃ db2, insert_faces fail db faces image_index description tags k =
          (db2, .error .insertFailed) ∧
        db2.images = db.images ∧ db2.faces.length = db.faces.length + j := by
  intro j
  induction j with
  | zero =>
    intro faces db k hlen _ hfail
    match faces, hlen with
    | fd :: rest, _ =>
      have hk : fail k = true := by simpa using hfail
      exact ⟨db, by simp [insert_faces, hk], rfl, rfl⟩
  | succ j ih =>
    intro faces db k hlen hprev hfail
    match faces, hlen with
    | fd :: rest, hlen2 =>
      have hk : fail k = false := by simpa using hprev 0 (Nat.succ_pos j)
      have hlen' : j < rest.length := by simpa using hlen2
      have hprev' : ∀ i, i < j → fail (k + 1 + i) = false := by
        intro i hi
        have h2 : k + 1 + i = k + (i + 1) := by omega
        rw [h2]
        exact hprev (i + 1) (by omega)
      have hfail' : fail (k + 1 + j) = true := by
        have h2 : k + 1 + j = k + (j + 1) := by omega
        rw [h2]
        exact hfail
      obtain ⟨db2, heq, him, hl⟩ :=
        ih rest (add_face db fd (some image_index) description tags).1 (k + 1)
          hlen' hprev' hfail'
      refine ⟨db2, ?_, ?_, ?_⟩
      · simp only [insert_faces, hk, Bool.false_eq_true, if_false, heq]
      · rw [him]
        exact (add_face_state db fd (some image_index) description tags).1
      · rw [hl, (add_face_state db fd (some image_index) description tags).2]
        omega

/-- Claim C1, evaluated at the failing input: the database stores one
face whose only tag is "shell" and the query asks for the disjoint tag
"hell", yet the face is returned, because the generated
`TAGS LIKE '%hell%'` condition substring-matches the stored text
"shell".  This is the substring-collision defect the specification
flags. -/
theorem get_faces_by_tags_substring_collision :
    get_faces_by_tags shellDB [hellTag] =
      .ok [{ image_format := .ID, image_data := .pyNone,
             location := exLocation, encoding := exEncoding,
             description := some [], tags := some [shellTag],
             id := some 1 }] := rfl

/-- Claim C2 counterexample: the batch insert is not atomic.  With two
detected faces and the second face INSERT failing, the call errors yet
the image row and the first face row remain persisted, because every
insert committed separately. -/
theorem add_faces_partial_rows_counterexample :
    (add_faces_from_image oracleTwoFaces failSecond emptyDB .BYTE_STREAM
      (.bytes [7]) [] []).2 = .error .insertFailed ∧
    (add_faces_from_image oracleTwoFaces failSecond emptyDB .BYTE_STREAM
      (.bytes [7]) [] []).1.images.length = 1 ∧
    (add_faces_from_image oracleTwoFaces failSecond emptyDB .BYTE_STREAM
      (.bytes [7]) [] []).1.faces.length = 1 :=
  ⟨rfl, rfl, rfl⟩

/-- Claim C2 as amended: a failure during extraction leaves the
database untouched (extraction runs before any insert), but a failure
of the j-th face INSERT after the image insert leaves the image row
and the j face rows already committed, since each insert commits on
its own. -/
theorem add_faces_from_image_failure_semantics (oracle : FROracle)
    (fail : Nat → Bool) (db : FaceDB) (fmt : ImageFormat) (dat : PyVal)
    (desc : PyStr) (tags : List PyStr) :
    (∀ e, extract_from_image oracle fmt dat = .error e →
      add_faces_from_image oracle fail db fmt dat desc tags =
        (db, .error (.extractFailed e))) ∧
    (∀ faces j, extract_from_image oracle fmt dat = .ok faces →
      j < faces.length → (∀ i, i < j → fail i = false) → fail j = true →
      ∃ db2, add_faces_from_image oracle fail db fmt dat desc tags =
          (db2, .error .insertFailed) ∧
        db2.images.length = db.images.length + 1 ∧
        db2.faces.length = db.faces.length + j) := by
  constructor
  · intro e he
    simp [add_faces_from_image, he]
  · intro faces j hex hlen hprev hfail
    have hne : faces.isEmpty = false := by
      cases faces
      · simp at hlen
      · rfl
    obtain ⟨db2, heq, him, hl⟩ :=
      insert_faces_fail_state fail (add_image db fmt dat desc).2 desc tags j
        faces (add_image db fmt dat desc).1 0 hlen
        (by intro i hi; simpa using hprev i hi)
        (by simpa using hfail)
    refine ⟨db2, ?_, ?_, ?_⟩
    · simp [add_faces_from_image, hex, hne, heq]
    · rw [him]
      simp [add_image]
    · rw [hl]
      rfl

/-- Claim C2 witness: the amended failure semantics instantiated at a
concrete database, collaborator and failure pattern. -/
theorem add_faces_from_image_failure_semantics_witness :
    ∃ db2, add_faces_from_image oracleTwoFaces failSecond emptyDB .BYTE_STREAM
        (.bytes [7]) [] [] = (db2, .error .insertFailed) ∧
      db2.images.length = emptyDB.images.length + 1 ∧
      db2.faces.length = emptyDB.faces.length + 1 :=
  (add_faces_from_image_failure_semantics oracleTwoFaces failSecond emptyDB
    .BYTE_STREAM (.bytes [7]) [] []).2 _ 1 rfl (by decide) (by decide)
    (by decide)

/-- Claim C3: when extraction detects zero faces,
`add_faces_from_image` returns the empty list and performs no insert
at all: the database state comes back unchanged. -/
theorem add_faces_zero_detected (oracle : FROracle) (fail : Nat → Bool)
    (db : FaceDB) (fmt : ImageFormat) (dat : PyVal) (desc : PyStr)
    (tags : List PyStr) (h : extract_from_image oracle fmt dat = .ok []) :
    add_faces_from_image oracle fail db fmt dat desc tags = (db, .ok []) := by
  simp [add_faces_from_image, h]

/-- Claim C3 witness: a concrete no-face extraction leaves the empty
database unchanged. -/
theorem add_faces_zero_detected_witness :
    add_faces_from_image oracleNoFaces noFail emptyDB .BYTE_STREAM
      (.bytes [7]) [] [] = (emptyDB, .ok []) :=
  add_faces_zero_detected oracleNoFaces noFail emptyDB .BYTE_STREAM
    (.bytes [7]) [] [] rfl

/-- Claim C4 counterexample: the tag round trip fails on the empty tag
set, the edge case the claim itself names: `','.join(()) == ''` and
`''.split(',') == ('',)`, so the empty tuple comes back as a
one-element tuple holding the empty string. -/
theorem adapt_convert_tags_empty_counterexample :
    convert_tags (adapt_tags []) = [[]] ∧ ([[]] : List PyStr) ≠ [] :=
  ⟨rfl, by decide⟩

/-- Claim C4 as amended: the encoding, image-format and location
adapters round-trip on every value; the tags adapter round-trips
exactly on the collections that are non-empty and comma-free. -/
theorem adapters_round_trip (v : FaceEncoding) (fmt : ImageFormat)
    (loc : FaceLocation) (tags : List PyStr) (h1 : tags ≠ [])
    (h2 : ∀ t ∈ tags, ',' ∉ t) :
    convert_nparray (adapt_nparray v) = v ∧
    convert_imageformat (adapt_imageformat fmt) = some fmt ∧
    convert_facelocation (adapt_facelocation loc) = some loc ∧
    convert_tags (adapt_tags tags) = tags :=
  ⟨rfl, convert_adapt_imageformat fmt, convert_adapt_facelocation loc,
    convert_adapt_tags h1 h2⟩

/-- Claim C4 witness: the amended round trips at concrete values. -/
theorem adapters_round_trip_witness :
    convert_nparray (adapt_nparray exEncoding) = exEncoding ∧
    convert_imageformat (adapt_imageformat .LOCAL_PATH) = some .LOCAL_PATH ∧
    convert_facelocation (adapt_facelocation exLocation) = some exLocation ∧
    convert_tags (adapt_tags [shellTag]) = [shellTag] :=
  adapters_round_trip exEncoding .LOCAL_PATH exLocation [shellTag]
    (by decide) (by decide)

/-- Claim C5: extraction with the URL or ID format fails with the
unsupported-format error (`raise NotImplementedError`), and such a
request through `add_faces_from_image` writes nothing: the state comes
back unchanged with the propagated error. -/
theorem unsupported_format_rejected (oracle : FROracle) (fail : Nat → Bool)
    (db : FaceDB) (dat : PyVal) (desc : PyStr) (tags : List PyStr)
    (fmt : ImageFormat) (h : fmt = .URL ∨ fmt = .ID) :
    extract_from_image oracle fmt dat = .error .notImplemented ∧
    add_faces_from_image oracle fail db fmt dat desc tags =
      (db, .error (.extractFailed .notImplemented)) := by
  rcases h with h | h <;> subst h <;> exact ⟨rfl, rfl⟩

/-- Claim C5 witness: a concrete URL request is rejected with no rows
written. -/
theorem unsupported_format_rejected_witness :
    extract_from_image oracleTwoFaces .URL (.str "u".toList) =
      .error .notImplemented ∧
    add_faces_from_image oracleTwoFaces noFail emptyDB .URL
      (.str "u".toList) [] [] =
      (emptyDB, .error (.extractFailed .notImplemented)) :=
  unsupported_format_rejected oracleTwoFaces noFail emptyDB (.str "u".toList)
    [] [] .URL (Or.inl rfl)

/-- Claim C6: `compare` returns one pair per candidate, in candidate
input order, pairing each candidate with the Euclidean distance
between its encoding and the query's encoding — no sorting and no
thresholding — and identical encodings give distance zero. -/
theorem compare_euclidean_ordered (q : FaceData) (cands : List FaceData)
    (hdim : ∀ c ∈ cands, c.encoding.length = q.encoding.length) :
    FaceData.compare q cands =
      cands.map (fun c => (c, euclideanDist c.encoding q.encoding)) ∧
    ∀ c ∈ cands, c.encoding = q.encoding →
      euclideanDist c.encoding q.encoding = 0 := by
  constructor
  · unfold FaceData.compare face_distance
    rw [List.map_map]
    exact zip_map_self _ cands
  · intro c _ hce
    rw [hce]
    exact euclideanDist_self _

/-- Claim C6 witness: comparing a face against itself yields the pair
list with distance zero for the identical encoding. -/
theorem compare_euclidean_ordered_witness :
    FaceData.compare exFace [exFace] =
      [exFace].map (fun c => (c, euclideanDist c.encoding exFace.encoding)) ∧
    ∀ c ∈ [exFace], c.encoding = exFace.encoding →
      euclideanDist c.encoding exFace.encoding = 0 :=
  compare_euclidean_ordered exFace [exFace]
    (by intro c hc; rw [List.mem_singleton] at hc; rw [hc])

/-- Claim C7: the conversion between the stored `(x1, y1, x2, y2)` box
and the collaborator's `(top, right, bottom, left)` box is a lossless
fixed permutation in both directions. -/
theorem facelocation_fr_rect_round_trip (loc : FaceLocation)
    (t r b l : Int) :
    FaceLocation.from_fr_rect loc.fr_rect = loc ∧
    (FaceLocation.from_fr_rect (t, r, b, l)).fr_rect = (t, r, b, l) :=
  ⟨rfl, rfl⟩

/-- Claim C8: `get_face_by_id` yields the explicit absent value, not an
error, when no row carries the id, and otherwise a `FaceData` carrying
the matched row's stored (deserialized) encoding, location, image
back-reference, description and tags. -/
theorem get_face_by_id_contract (db : FaceDB) (fid : Nat) :
    (db.faces.filter (fun r => r.id == fid) = [] →
      get_face_by_id db fid = .ok Option.none) ∧
    (∀ row rest loc, db.faces.filter (fun r => r.id == fid) = row :: rest →
      convert_facelocation row.location = some loc →
      get_face_by_id db fid = .ok (some
        { image_format := .ID,
          image_data := imageRefVal row.image,
          location := loc,
          encoding := convert_nparray row.encoding,
          description := some row.description,
          tags := some (convert_tags row.tags) })) := by
  constructor
  · intro h
    unfold get_face_by_id
    rw [h]
  · intro row rest loc h hloc
    unfold get_face_by_id
    rw [h]
    simp [hloc]

/-- Claim C8 witness: the contract at a concrete database, for a
missing id and for the stored row. -/
theorem get_face_by_id_contract_witness :
    get_face_by_id shellDB 9 = .ok Option.none ∧
    get_face_by_id shellDB 1 = .ok (some
      { image_format := .ID, image_data := imageRefVal Option.none,
        location := exLocation,
        encoding := convert_nparray (adapt_nparray exEncoding),
        description := some [],
        tags := some (convert_tags (adapt_tags [shellTag])) }) :=
  ⟨(get_face_by_id_contract shellDB 9).1 rfl,
   (get_face_by_id_contract shellDB 1).2
     { id := 1, encoding := adapt_nparray exEncoding, image := Option.none,
       location := adapt_facelocation exLocation, description := [],
       tags := adapt_tags [shellTag] } [] exLocation rfl
     (convert_adapt_facelocation exLocation)⟩

/-- Claim C9 counterexample: a face stored with the empty tag
collection serializes to the empty string, which deserializes to a
one-element tag set holding the empty string, so `get_all_tags`
reports a tag that was never stored. -/
theorem get_all_tags_empty_counterexample :
    get_all_tags (add_face emptyDB exFace Option.none [] []).1 = [[]] ∧
    ([[]] : List PyStr) ≠ [] :=
  ⟨rfl, by decide⟩

/-- Claim C9 as amended: `get_all_tags` returns a duplicate-free list
whose members are exactly the tags obtained by deserializing the
stored TAGS string of some face row.  For rows stored with a non-empty
comma-free tag collection these are the stored tags; a row stored with
the empty collection contributes a spurious empty-string tag. -/
theorem get_all_tags_membership (db : FaceDB) :
    (get_all_tags db).Nodup ∧
    ∀ a, a ∈ get_all_tags db ↔ ∃ r ∈ db.faces, a ∈ convert_tags r.tags := by
  constructor
  · exact List.nodup_dedup _
  · intro a
    unfold get_all_tags
    rw [List.mem_dedup, List.mem_flatMap]
    constructor
    · rintro ⟨s, hs, ha⟩
      rw [List.mem_dedup, List.mem_map] at hs
      obtain ⟨r, hr, rfl⟩ := hs
      exact ⟨r, hr, ha⟩
    · rintro ⟨r, hr, ha⟩
      refine ⟨r.tags, ?_, ha⟩
      rw [List.mem_dedup, List.mem_map]
      exact ⟨r, hr, rfl⟩

/-- Claim C10: querying with an empty tag collection generates an
empty WHERE expression, which sqlite rejects as malformed, so the call
errors instead of returning an empty result sequence. -/
theorem get_faces_by_tags_empty_query (db : FaceDB) :
    get_faces_by_tags db [] = .error .malformedSql := rfl
